import Mathlib

/-!
Verification development for uuwm (src/uuwm.c), a minimal tiling window
manager.  The definitions below are a shallow embedding of the C source:

* machine integers (`int`, the geometry fields, the screen size) are
  modelled as `Int`; the C program never gets near overflow on these paths,
  and the source performs no wrapping arithmetic on them;
* C `float` fields (`mina`, `maxa`, from the aspect-ratio hints) are
  modelled as `ℚ` with exact arithmetic; the aspect branch is gated by
  `mina > 0 && maxa > 0`, and no theorem below depends on the numeric
  output of that branch;
* C truncating division/modulo (`/`, `%` on `int`) are `Int.tdiv` /
  `Int.tmod`;
* every server round trip (a reply that the C code reads) becomes an
  explicit `Option` argument of the handler, `none` meaning the reply was
  absent or failed to parse exactly where the C code checks for that;
* the global mutable state (`clients`, `stack`, `sel`, the screen
  geometry) is an explicit `WMState` value threaded through the handlers;
  the two intrusive linked lists (`next` / `snext` pointers) become two
  `List WinId` fields, and the per-client records live in a `WinId →
  client_t` map keyed by the window handle;
* requests the program sends to the server become an explicit `XAction`
  trace returned alongside the new state; `xcb_aux_configure_window`'s
  `pack_list` packing of a params struct by value mask is embedded
  literally.
-/

set_option autoImplicit false

namespace Uuwm

/-- Window identifiers (`xcb_window_t`). -/
abbrev WinId := Nat

/-- `struct client_t` from uuwm.c (the `next`/`snext` intrusive pointers are
represented by membership in the two lists of `WMState` instead). -/
structure client_t where
  mina : ℚ
  maxa : ℚ
  x : Int
  y : Int
  w : Int
  h : Int
  basew : Int
  baseh : Int
  incw : Int
  inch : Int
  maxw : Int
  maxh : Int
  minw : Int
  minh : Int
  oldbw : Int
  isfixed : Bool
  isfloating : Bool
  isurgent : Bool
  ispanel : Bool
  win : WinId
deriving DecidableEq

/-- The zeroed client record produced by `calloc(1, sizeof(client_t))` in
`manage`, with the window handle filled in (`c->win = w`). -/
def callocClient (w : WinId) : client_t :=
  { mina := 0, maxa := 0, x := 0, y := 0, w := 0, h := 0,
    basew := 0, baseh := 0, incw := 0, inch := 0,
    maxw := 0, maxh := 0, minw := 0, minh := 0, oldbw := 0,
    isfixed := false, isfloating := false, isurgent := false,
    ispanel := false, win := w }

/-- C float-to-int conversion: truncation toward zero (here on exact `ℚ`). -/
def ratTrunc (q : ℚ) : Int := q.num.tdiv (q.den : Int)

/-- The ICCCM constraint arithmetic of `applysizehints` that runs only for
floating clients (uuwm.c lines 173-213), acting on the already-floored
width and height. -/
def floatingAdjust (c : client_t) (w0 h0 : Int) : Int × Int :=
  -- see last two sentences in ICCCM 4.1.2.3
  let baseismin : Bool := (c.basew == c.minw) && (c.baseh == c.minh)
  -- temporarily remove base dimensions
  let w1 : Int := if !baseismin then w0 - c.basew else w0
  let h1 : Int := if !baseismin then h0 - c.baseh else h0
  -- adjust for aspect limits
  let wh2 : Int × Int :=
    if c.mina > 0 ∧ c.maxa > 0 then
      if c.maxa < (w1 : ℚ) / (h1 : ℚ) then (ratTrunc ((h1 : ℚ) * c.maxa), h1)
      else if c.mina < (h1 : ℚ) / (w1 : ℚ) then (w1, ratTrunc ((w1 : ℚ) * c.mina))
      else (w1, h1)
    else (w1, h1)
  -- increment calculation requires this
  let w3 : Int := if baseismin then wh2.1 - c.basew else wh2.1
  let h3 : Int := if baseismin then wh2.2 - c.baseh else wh2.2
  -- adjust for increment value
  let w4 : Int := if c.incw ≠ 0 then w3 - Int.tmod w3 c.incw else w3
  let h4 : Int := if c.inch ≠ 0 then h3 - Int.tmod h3 c.inch else h3
  -- restore base dimensions
  let w5 : Int := w4 + c.basew
  let h5 : Int := h4 + c.baseh
  let w6 : Int := max w5 c.minw
  let h6 : Int := max h5 c.minh
  let w7 : Int := if c.maxw ≠ 0 then min w6 c.maxw else w6
  let h7 : Int := if c.maxh ≠ 0 then min h6 c.maxh else h6
  (w7, h7)

/-- `applysizehints` (uuwm.c lines 156-215): floors the requested size at 1,
clamps the position against the screen, applies the ICCCM arithmetic for
floating clients, and reports whether the result differs from the client's
recorded geometry.  Returns `((x, y, w, h), changed)`. -/
def applysizehints (sx sy sw sh : Int) (c : client_t) (x0 y0 w0 h0 : Int) :
    (Int × Int × Int × Int) × Bool :=
  -- set minimum possible
  let w1 : Int := max 1 w0
  let h1 : Int := max 1 h0
  let x1 : Int := if x0 > sx + sw then sw - c.w else x0
  let y1 : Int := if y0 > sy + sh then sh - c.h else y0
  let x2 : Int := if x1 + w1 < sx then sx else x1
  let y2 : Int := if y1 + h1 < sy then sy else y1
  let wh : Int × Int := if c.isfloating then floatingAdjust c w1 h1 else (w1, h1)
  ((x2, y2, wh.1, wh.2),
   (x2 != c.x) || (y2 != c.y) || (wh.1 != c.w) || (wh.2 != c.h))

/-- The position-clamping steps of `applysizehints` on one axis, factored
out for stating what happens to tiled clients: `p` is the requested
coordinate, `len` the already-floored length, `cold` the client's recorded
length on that axis. -/
def clampPos (lo span cold p len : Int) : Int :=
  let p1 : Int := if p > lo + span then span - cold else p
  if p1 + len < lo then lo else p1

/-! ### Protocol constants (values from xcb/X11 headers) -/

/-- `XCB_CONFIG_WINDOW_X`. -/
def CWX : Nat := 1
/-- `XCB_CONFIG_WINDOW_Y`. -/
def CWY : Nat := 2
/-- `XCB_CONFIG_WINDOW_WIDTH`. -/
def CWWidth : Nat := 4
/-- `XCB_CONFIG_WINDOW_HEIGHT`. -/
def CWHeight : Nat := 8
/-- `XCB_CONFIG_WINDOW_BORDER_WIDTH`. -/
def CWBorderWidth : Nat := 16
/-- `XCB_CONFIG_WINDOW_SIBLING`. -/
def CWSibling : Nat := 32
/-- `XCB_CONFIG_WINDOW_STACK_MODE`. -/
def CWStackMode : Nat := 64
/-- `XCB_STACK_MODE_ABOVE`. -/
def StackModeAbove : Int := 0
/-- `XCB_STACK_MODE_BELOW`. -/
def StackModeBelow : Int := 1
/-- `XCB_NONE`. -/
def XCB_NONE : Int := 0
/-- `XCB_WM_HINT_X_URGENCY` (bit 8 of the WM-hints flags word). -/
def XUrgencyHint : Nat := 256
/-- Predefined atom `WM_NAME`. -/
def XA_WM_NAME : Nat := 39
/-- Predefined atom `WM_TRANSIENT_FOR`. -/
def XA_WM_TRANSIENT_FOR : Nat := 68
/-- Predefined atom `WM_NORMAL_HINTS`. -/
def XA_WM_NORMAL_HINTS : Nat := 40
/-- Predefined atom `WM_HINTS`. -/
def XA_WM_HINTS : Nat := 35
/-- `XCB_SIZE_HINT_P_SIZE`. -/
def SizeHintPSize : Nat := 8
/-- `XCB_SIZE_HINT_P_MIN_SIZE`. -/
def SizeHintPMinSize : Nat := 16
/-- `XCB_SIZE_HINT_P_MAX_SIZE`. -/
def SizeHintPMaxSize : Nat := 32
/-- `XCB_SIZE_HINT_P_RESIZE_INC`. -/
def SizeHintPResizeInc : Nat := 64
/-- `XCB_SIZE_HINT_P_ASPECT`. -/
def SizeHintPAspect : Nat := 128
/-- `XCB_SIZE_HINT_BASE_SIZE`. -/
def SizeHintBaseSize : Nat := 256
/-- `XCB_WM_STATE_WITHDRAWN`. -/
def WMStateWithdrawn : Int := 0
/-- `XCB_WM_STATE_NORMAL`. -/
def WMStateNormal : Int := 1
/-- `XCB_PROPERTY_DELETE`. -/
def PropertyDelete : Nat := 1
/-- `XCB_NOTIFY_MODE_NORMAL`. -/
def NotifyModeNormal : Nat := 0
/-- `XCB_NOTIFY_DETAIL_INFERIOR`. -/
def NotifyDetailInferior : Nat := 2

/-! ### Requests emitted to the server -/

/-- `pack_list` (uuwm.c lines 82-87): collect the params-struct fields named
by the value mask, in bit order, into the value list actually sent on the
wire.  The C loop walks the mask's bits while stepping through the source
struct; recursing on the (always 7-field) source list is equivalent: once
the source is exhausted, no further value can be packed. -/
def pack_list (mask : Nat) : List Int → List Int
  | [] => []
  | v :: rest => (if mask % 2 = 1 then [v] else []) ++ pack_list (mask / 2) rest

/-- One request or notification the window manager sends to the X server.
State-changing handlers return the list of these they emit, in order. -/
inductive XAction where
  /-- `xcb_aux_configure_window` via `configure`: value mask plus the packed
  value list (see `pack_list`). -/
  | configureWin (win : WinId) (mask : Nat) (vals : List Int)
  /-- `configure_event`: synthetic `ConfigureNotify` sent to the client with
  its recorded geometry (border 0, no sibling, not override-redirect). -/
  | syntheticConfigureNotify (win : WinId) (x y w h : Int)
  /-- `set_focus` (`xcb_set_input_focus`, revert-to pointer-root). -/
  | setInputFocus (win : WinId)
  /-- `xcb_set_wm_hints`: rewrite a window's WM-hints flags word. -/
  | setWMHints (win : WinId) (flags : Nat)
  /-- `xcb_map_window`. -/
  | mapWindow (win : WinId)
  /-- `setclientstate`: write the `WM_STATE` property. -/
  | setWMState (win : WinId) (st : Int)
  /-- `xcb_aux_change_window_attributes` selecting per-client events
  (manage, uuwm.c lines 750-764). -/
  | selectClientEvents (win : WinId)
  /-- `xcb_grab_server`. -/
  | grabServer
  /-- `xcb_ungrab_server`. -/
  | ungrabServer
deriving DecidableEq

/-- Build a `configure` request from the seven params-struct fields
(x, y, width, height, border_width, sibling, stack_mode, in the order of
`xcb_params_configure_window_t`) and a value mask; only the masked fields
reach the wire.  Call sites pass 0 for fields the C code leaves
uninitialized and the mask provably never packs. -/
def mkConfigure (win : WinId) (mask : Nat) (x y w h bw sib sm : Int) : XAction :=
  XAction.configureWin win mask (pack_list mask [x, y, w, h, bw, sib, sm])

/-- Recognizer for the synthetic `ConfigureNotify` action. -/
def isSyntheticNotify : XAction → Bool
  | XAction.syntheticConfigureNotify _ _ _ _ _ => true
  | _ => false

/-! ### Global state -/

/-- The window manager's global mutable state: screen geometry `sx,sy,sw,sh`
and work area `wx,wy,ww,wh`, the z-order list `clients`, the focus-history
`stack`, the selected client `sel`, plus the per-window client records
(`recs v` is meaningful for `v` in the lists; it stands for the heap node
the two intrusive lists point at). `root` is the (constant) root window. -/
structure WMState where
  root : WinId
  sx : Int
  sy : Int
  sw : Int
  sh : Int
  wx : Int
  wy : Int
  ww : Int
  wh : Int
  clients : List WinId
  stack : List WinId
  sel : Option WinId
  recs : WinId → client_t

/-- Point-wise update of the client-record map. -/
def updRec (f : WinId → client_t) (w : WinId) (c : client_t) : WinId → client_t :=
  fun v => if v = w then c else f v

/-- The state right after `setup()`: `sx = sy = 0`, screen size from the
server, `updategeom` copying it to the work area, no clients. -/
def initState (W H : Int) (rt : WinId) : WMState :=
  { root := rt, sx := 0, sy := 0, sw := W, sh := H,
    wx := 0, wy := 0, ww := W, wh := H,
    clients := [], stack := [], sel := none,
    recs := fun v => callocClient v }

/-- `getclient` (uuwm.c lines 550-558): linear scan of the z-order list for
the client whose `win` equals the handle (the list holds the handles
themselves here). -/
def getclient (s : WMState) (w : WinId) : Option WinId :=
  s.clients.find? (fun v => v == w)

/-! ### Core operations -/

/-- `configure_event` (uuwm.c lines 234-258): synthesize a ConfigureNotify
carrying the client's recorded geometry. -/
def configure_event (c : client_t) : XAction :=
  XAction.syntheticConfigureNotify c.win c.x c.y c.w c.h

/-- `resize` (uuwm.c lines 275-295): run `applysizehints`; when it reports a
change, record the new geometry, reconfigure the window (x, y, width,
height, border 0) and send the synthetic notify. -/
def resize (s : WMState) (cw : WinId) (x y w h : Int) : WMState × List XAction :=
  let c := s.recs cw
  let r := applysizehints s.sx s.sy s.sw s.sh c x y w h
  if r.2 then
    let c2 := { c with x := r.1.1, y := r.1.2.1, w := r.1.2.2.1, h := r.1.2.2.2 }
    ({ s with recs := updRec s.recs cw c2 },
     [mkConfigure c2.win 31 c2.x c2.y c2.w c2.h 0 0 0, configure_event c2])
  else (s, [])

/-- `clearurgent` (uuwm.c lines 395-411): drop the flag, then (if the hints
property could be read back) rewrite it with the urgency bit cleared.
`urg` is the flags word of the hints reply, `none` when the read failed. -/
def clearurgent (s : WMState) (cw : WinId) (urg : Option Nat) : WMState × List XAction :=
  let c := s.recs cw
  let s1 := { s with recs := updRec s.recs cw { c with isurgent := false } }
  match urg with
  | some flags => (s1, [XAction.setWMHints c.win (flags ^^^ (flags &&& XUrgencyHint))])
  | none => (s1, [])

/-- `focus` (uuwm.c lines 413-434): resolve an absent candidate to the
stack head; clear urgency, promote in the focus stack and take input focus
for a client, or focus the root when there is none; record `sel`. -/
def focus (s : WMState) (copt : Option WinId) (urg : Option Nat) : WMState × List XAction :=
  let copt2 : Option WinId := match copt with
    | none => s.stack.head?
    | some w => some w
  match copt2 with
  | some w =>
      let su : WMState × List XAction :=
        if (s.recs w).isurgent then clearurgent s w urg else (s, [])
      ({ su.1 with stack := w :: su.1.stack.erase w, sel := some w },
       su.2 ++ [XAction.setInputFocus (s.recs w).win])
  | none => ({ s with sel := none }, [XAction.setInputFocus s.root])

/-- `showhide` (uuwm.c lines 458-473), walking the focus stack: reconfigure
each client's position, and re-`resize` floating clients in place. -/
def showhide (s : WMState) : List WinId → WMState × List XAction
  | [] => (s, [])
  | v :: rest =>
      let c := s.recs v
      let a0 := mkConfigure c.win 3 c.x c.y 0 0 0 0 0
      let sr : WMState × List XAction :=
        if c.isfloating then resize s v c.x c.y c.w c.h else (s, [])
      let st : WMState × List XAction := showhide sr.1 rest
      (st.1, a0 :: (sr.2 ++ st.2))

/-- The loop body of `monocle` (uuwm.c lines 297-304) together with
`nexttiled`: every non-floating client of the z-order list, in order, is
resized to the full work area. -/
def monocleGo (s : WMState) : List WinId → WMState × List XAction
  | [] => (s, [])
  | v :: rest =>
      if (s.recs v).isfloating then monocleGo s rest
      else
        let sr := resize s v s.wx s.wy s.ww s.wh
        let st := monocleGo sr.1 rest
        (st.1, sr.2 ++ st.2)

/-- `monocle` (uuwm.c lines 297-304), the installed `do_arrange`. -/
def monocle (s : WMState) : WMState × List XAction :=
  monocleGo s s.clients

/-- `restack` (uuwm.c lines 475-504): nothing when no client is selected;
otherwise raise a floating selected client, then chain every non-floating
stack member below its predecessor (sibling starts at `XCB_NONE`, the
params struct keeping the previous window as sibling). -/
def restackGo (s : WMState) (sib : Int) : List WinId → List XAction
  | [] => []
  | v :: rest =>
      if (s.recs v).isfloating then restackGo s sib rest
      else
        mkConfigure (s.recs v).win (CWSibling + CWStackMode) 0 0 0 0 0 sib StackModeBelow
          :: restackGo s ((s.recs v).win : Int) rest

/-- `restack` (uuwm.c lines 475-504). -/
def restack (s : WMState) : List XAction :=
  match s.sel with
  | none => []
  | some selw =>
      (if (s.recs selw).isfloating then
        [mkConfigure (s.recs selw).win CWStackMode 0 0 0 0 0 0 StackModeAbove]
       else []) ++ restackGo s XCB_NONE s.stack

/-- `arrange` (uuwm.c lines 506-512): showhide the stack, `focus(NULL)`,
run the layout, restack. -/
def arrange (s : WMState) (urg : Option Nat) : WMState × List XAction :=
  let s1 := showhide s s.stack
  let s2 := focus s1.1 none urg
  let s3 := monocle s2.1
  let a4 := restack s3.1
  (s3.1, s1.2 ++ s2.2 ++ s3.2 ++ a4)

/-- `unmanage` (uuwm.c lines 514-533): restore the original border width,
detach from both lists, refocus if this client was selected, mark it
Withdrawn and re-arrange, all inside a server grab. -/
def unmanage (s : WMState) (cw : WinId) (urg : Option Nat) : WMState × List XAction :=
  let c := s.recs cw
  let a0 := [XAction.grabServer, mkConfigure c.win CWBorderWidth 0 0 0 0 c.oldbw 0 0]
  let s1 := { s with clients := s.clients.erase cw, stack := s.stack.erase cw }
  let sf : WMState × List XAction :=
    if s.sel = some cw then focus s1 none urg else (s1, [])
  let a2 := [XAction.setWMState c.win WMStateWithdrawn, XAction.ungrabServer]
  let sa := arrange sf.1 urg
  (sa.1, a0 ++ sf.2 ++ a2 ++ sa.2)

/-! ### Property parsing and lifecycle -/

/-- `xcb_size_hints_t`, the fields `updatesizehints` reads. -/
structure xcb_size_hints_t where
  flags : Nat
  base_width : Int
  base_height : Int
  min_width : Int
  min_height : Int
  max_width : Int
  max_height : Int
  width_inc : Int
  height_inc : Int
  min_aspect_num : Int
  min_aspect_den : Int
  max_aspect_num : Int
  max_aspect_den : Int
deriving DecidableEq

/-- `updatesizehints` (uuwm.c lines 655-701) as a pure record transformer:
`reply` is the parsed normal-hints reply, `none` when the request failed
(the code then acts on `flags = XCB_SIZE_HINT_P_SIZE` and, provably, reads
no other field; the zeros here stand for those never-read fields).  The C
aspect fields are `float`; the quotients are exact here. -/
def updatesizehints (c : client_t) (reply : Option xcb_size_hints_t) : client_t :=
  let hints : xcb_size_hints_t := match reply with
    | some hs => hs
    | none => { flags := SizeHintPSize, base_width := 0, base_height := 0,
                min_width := 0, min_height := 0, max_width := 0, max_height := 0,
                width_inc := 0, height_inc := 0, min_aspect_num := 0,
                min_aspect_den := 0, max_aspect_num := 0, max_aspect_den := 0 }
  let c := if hints.flags &&& SizeHintBaseSize ≠ 0 then
      { c with basew := hints.base_width, baseh := hints.base_height }
    else if hints.flags &&& SizeHintPMinSize ≠ 0 then
      { c with basew := hints.min_width, baseh := hints.min_height }
    else { c with basew := 0, baseh := 0 }
  let c := if hints.flags &&& SizeHintPResizeInc ≠ 0 then
      { c with incw := hints.width_inc, inch := hints.height_inc }
    else { c with incw := 0, inch := 0 }
  let c := if hints.flags &&& SizeHintPMaxSize ≠ 0 then
      { c with maxw := hints.max_width, maxh := hints.max_height }
    else { c with maxw := 0, maxh := 0 }
  let c := if hints.flags &&& SizeHintPMinSize ≠ 0 then
      { c with minw := hints.min_width, minh := hints.min_height }
    else if hints.flags &&& SizeHintBaseSize ≠ 0 then
      { c with minw := hints.base_width, minh := hints.base_height }
    else { c with minw := 0, minh := 0 }
  let c := if hints.flags &&& SizeHintPAspect ≠ 0 then
      { c with mina := (hints.min_aspect_num : ℚ) / (hints.min_aspect_den : ℚ),
               maxa := (hints.max_aspect_num : ℚ) / (hints.max_aspect_den : ℚ) }
    else { c with mina := 0, maxa := 0 }
  { c with isfixed :=
      (c.maxw != 0) && (c.minw != 0) && (c.maxh != 0) && (c.minh != 0)
      && (c.maxw == c.minw) && (c.maxh == c.minh) }

/-- `xcb_get_geometry` reply fields read by `manage`. -/
structure xcb_get_geometry_reply_t where
  x : Int
  y : Int
  width : Int
  height : Int
  border_width : Int
deriving DecidableEq

/-- The never-initialized fields of `manage`'s outer
`xcb_params_configure_window_t params` (uuwm.c line 742: only
`border_width` is ever set) that the two `param`/`params` mix-ups at lines
786 and 802 nevertheless pack onto the wire: stack garbage, modelled as an
explicit input. -/
structure StackGarbage where
  gx : Int
  gy : Int
  gw : Int
  gh : Int
  gsm : Int
deriving DecidableEq

/-- `manage` (uuwm.c lines 703-810).  `geom` is the geometry reply (`none`
aborts, leaking the fresh record but touching no list), `hints` the
normal-hints reply, `transient` the parsed `WM_TRANSIENT_FOR` value
(`none` when the property could not be parsed), `mem` the stack garbage
described at `StackGarbage`, `urg` the hints reply `arrange` may read
through `clearurgent`. -/
def manage (s : WMState) (w : WinId) (geom : Option xcb_get_geometry_reply_t)
    (hints : Option xcb_size_hints_t) (transient : Option WinId)
    (mem : StackGarbage) (urg : Option Nat) : WMState × List XAction :=
  match geom with
  | none => (s, [])
  | some g =>
    let c0 : client_t := { callocClient w with
      x := g.x, y := g.y, w := g.width, h := g.height, oldbw := g.border_width }
    let c1 : client_t :=
      if c0.w = s.sw ∧ c0.h = s.sh then { c0 with x := s.sx, y := s.sy }
      else
        let cx := if c0.x + c0.w > s.sx + s.sw then s.sx + s.sw - c0.w else c0.x
        let cy := if c0.y + c0.h > s.sy + s.sh then s.sy + s.sh - c0.h else c0.y
        -- only fix client y-offset, if the client center might cover the bar
        { c0 with x := max cx s.sx, y := max cy s.sy }
    let a0 := [mkConfigure w CWBorderWidth 0 0 0 0 0 0 0]
    let c2 := updatesizehints c1 hints
    let a1 := [XAction.selectClientEvents w]
    let c3 := { c2 with isfloating := c2.isfloating || c2.isfixed }
    let c4 : client_t := match transient with
      | some t => { c3 with isfloating := c3.isfloating || (t != 0) }
      | none => c3
    -- the raise at lines 781-787 packs the outer params struct's
    -- uninitialized stack_mode field (`param`/`params` mix-up)
    let a2 := if c4.isfloating then [mkConfigure w CWStackMode 0 0 0 0 0 0 mem.gsm] else []
    let s1 := { s with clients := w :: s.clients, stack := w :: s.stack,
                       recs := updRec s.recs w c4 }
    -- lines 795-803: same mix-up, mask x|y|w|h over the outer struct's
    -- uninitialized fields
    let a3 := [mkConfigure w (CWX + CWY + CWWidth + CWHeight) mem.gx mem.gy mem.gw mem.gh 0 0 0,
               XAction.mapWindow w, XAction.setWMState w WMStateNormal]
    let sa := arrange s1 urg
    (sa.1, a0 ++ a1 ++ a2 ++ a3 ++ sa.2)

/-! ### Event handlers -/

/-- `xcb_configure_request_event_t` fields read by the handler. -/
structure xcb_configure_request_event_t where
  window : WinId
  value_mask : Nat
  x : Int
  y : Int
  width : Int
  height : Int
  border_width : Int
  sibling : Int
  stack_mode : Int
deriving DecidableEq

/-- `configurerequest` (uuwm.c lines 560-623).  Managed windows: a request
naming border width only gets the nonzero border stripped; a floating
client gets the masked geometry fields applied, centered per axis on
overflow, a synthetic notify when `(mask & (CWX|CWY)) & !(mask &
(CWWidth|CWHeight))` is nonzero (the C `&`/`!` combination, kept
verbatim), and a real reconfigure; a tiled client only gets the synthetic
notify.  Unmanaged windows: the request is forwarded with its original
mask and fields. -/
def configurerequest (s : WMState) (e : xcb_configure_request_event_t) :
    WMState × List XAction :=
  match getclient s e.window with
  | some cw =>
    let c := s.recs cw
    if e.value_mask &&& CWBorderWidth ≠ 0 then
      if e.border_width ≠ 0 then
        (s, [mkConfigure c.win CWBorderWidth 0 0 0 0 0 0 0])
      else (s, [])
    else if c.isfloating then
      let cx := if e.value_mask &&& CWX ≠ 0 then s.sx + e.x else c.x
      let cy := if e.value_mask &&& CWY ≠ 0 then s.sy + e.y else c.y
      let cw2 := if e.value_mask &&& CWWidth ≠ 0 then e.width else c.w
      let ch2 := if e.value_mask &&& CWHeight ≠ 0 then e.height else c.h
      -- center in x direction / center in y direction
      let cx2 := if cx - s.sx + cw2 > s.sw then s.sx + (Int.tdiv s.sw 2 - Int.tdiv cw2 2) else cx
      let cy2 := if cy - s.sy + ch2 > s.sh then s.sy + (Int.tdiv s.sh 2 - Int.tdiv ch2 2) else cy
      let c2 : client_t := { c with x := cx2, y := cy2, w := cw2, h := ch2 }
      let synth : List XAction :=
        if (e.value_mask &&& (CWX + CWY)) &&&
             (if e.value_mask &&& (CWWidth + CWHeight) ≠ 0 then 0 else 1) ≠ 0 then
          [configure_event c2]
        else []
      ({ s with recs := updRec s.recs cw c2 },
       synth ++ [mkConfigure c2.win (CWX + CWY + CWWidth + CWHeight) c2.x c2.y c2.w c2.h 0 0 0])
    else (s, [configure_event c])
  | none =>
      -- Not our business, just pass it through
      (s, [mkConfigure e.window e.value_mask e.x e.y e.width e.height
             e.border_width e.sibling e.stack_mode])

/-- `destroynotify` (uuwm.c lines 625-631). -/
def destroynotify (s : WMState) (w : WinId) (urg : Option Nat) : WMState × List XAction :=
  match getclient s w with
  | some cw => unmanage s cw urg
  | none => (s, [])

/-- `xcb_enter_notify_event_t` fields read by the handler. -/
structure xcb_enter_notify_event_t where
  mode : Nat
  detail : Nat
  event : WinId
deriving DecidableEq

/-- `enternotify` (uuwm.c lines 633-645). -/
def enternotify (s : WMState) (e : xcb_enter_notify_event_t) (urg : Option Nat) :
    WMState × List XAction :=
  if (e.mode ≠ NotifyModeNormal ∨ e.detail = NotifyDetailInferior) ∧ e.event ≠ s.root then
    (s, [])
  else
    match getclient s e.event with
    | some cw => focus s (some cw) urg
    | none => focus s none urg

/-- `focusin` (uuwm.c lines 647-653): reassert focus against clients that
steal it. -/
def focusin (s : WMState) (ew : WinId) : WMState × List XAction :=
  match s.sel with
  | some w => if ew ≠ (s.recs w).win then (s, [XAction.setInputFocus (s.recs w).win]) else (s, [])
  | none => (s, [])

/-- `updatewmhints` (uuwm.c lines 832-851), kept with the C code's
`if/else` attachment: when the hints reply parses, only the
selected-and-urgent case acts (rewriting the property); the `isurgent`
assignment sits in the reply-failed branch and reads the uninitialized
local `hints.flags`, modelled by the explicit `uninitFlags` input. -/
def updatewmhints (s : WMState) (cw : WinId) (reply : Option Nat) (uninitFlags : Nat) :
    WMState × List XAction :=
  let c := s.recs cw
  match reply with
  | some flags =>
      if s.sel = some cw ∧ flags &&& XUrgencyHint ≠ 0 then
        (s, [XAction.setWMHints c.win (flags ^^^ (flags &&& XUrgencyHint))])
      else (s, [])
  | none =>
      ({ s with recs := updRec s.recs cw { c with isurgent := uninitFlags &&& XUrgencyHint != 0 } },
       [])

/-- `check_refloat` (uuwm.c lines 853-868): when the `WM_TRANSIENT_FOR`
property parses, the floating flag becomes "the transient target is a
managed client", re-arranging when it changed. -/
def check_refloat (s : WMState) (cw : WinId) (transientReply : Option WinId)
    (urg : Option Nat) : WMState × List XAction :=
  match transientReply with
  | none => (s, [])
  | some t =>
      let c := s.recs cw
      let oldisfloating := c.isfloating
      let c2 := { c with isfloating := (getclient s t).isSome }
      let s1 := { s with recs := updRec s.recs cw c2 }
      if c2.isfloating ≠ oldisfloating then arrange s1 urg else (s1, [])

/-- `xcb_property_notify_event_t` fields read by the handler. -/
structure xcb_property_notify_event_t where
  window : WinId
  atom : Nat
  state : Nat
deriving DecidableEq

/-- The server replies `propertynotify`'s branches may read. -/
structure PropReplies where
  transient : Option WinId
  sizehints : Option xcb_size_hints_t
  wmhints : Option Nat
  uninitFlags : Nat
  urg : Option Nat

/-- `propertynotify` (uuwm.c lines 870-888). -/
def propertynotify (s : WMState) (e : xcb_property_notify_event_t) (o : PropReplies) :
    WMState × List XAction :=
  if e.window = s.root ∧ e.atom = XA_WM_NAME then (s, [])
  else if e.state = PropertyDelete then (s, [])
  else
    match getclient s e.window with
    | none => (s, [])
    | some cw =>
        if e.atom = XA_WM_TRANSIENT_FOR then check_refloat s cw o.transient o.urg
        else if e.atom = XA_WM_NORMAL_HINTS then
          ({ s with recs := updRec s.recs cw (updatesizehints (s.recs cw) o.sizehints) }, [])
        else if e.atom = XA_WM_HINTS then updatewmhints s cw o.wmhints o.uninitFlags
        else (s, [])

/-- `xcb_configure_notify_event_t` fields read by the handler. -/
structure xcb_configure_notify_event_t where
  window : WinId
  width : Int
  height : Int
deriving DecidableEq

/-- `configurenotify` (uuwm.c lines 890-899): a root resize updates the
screen and work-area geometry and re-arranges. -/
def configurenotify (s : WMState) (e : xcb_configure_notify_event_t) (urg : Option Nat) :
    WMState × List XAction :=
  if e.window = s.root ∧ (e.width ≠ s.sw ∨ e.height ≠ s.sh) then
    let s1 := { s with sw := e.width, sh := e.height }
    -- updategeom (uuwm.c lines 306-312)
    let s2 := { s1 with wx := s1.sx, wy := s1.sy, ww := s1.sw, wh := s1.sh }
    arrange s2 urg
  else (s, [])

/-- `unmapnotify` (uuwm.c lines 901-907). -/
def unmapnotify (s : WMState) (w : WinId) (urg : Option Nat) : WMState × List XAction :=
  match getclient s w with
  | some cw => unmanage s cw urg
  | none => (s, [])

/-- `maprequest` (uuwm.c lines 817-830): manage a window that is not
override-redirect (per its attributes reply) and not already managed. -/
def maprequest (s : WMState) (w : WinId) (attrs : Option Bool)
    (geom : Option xcb_get_geometry_reply_t) (hints : Option xcb_size_hints_t)
    (transient : Option WinId) (mem : StackGarbage) (urg : Option Nat) :
    WMState × List XAction :=
  match attrs with
  | some override =>
      if override = false then
        match getclient s w with
        | none => manage s w geom hints transient mem urg
        | some _ => (s, [])
      else (s, [])
  | none => (s, [])

/-! ### Reachability -/

/-- One dispatch of the event loop (uuwm.c `run`, lines 909-931), or one of
the internal entry points the spec's reachability clause names (`focus` is
only ever invoked with `NULL` or a registry member, witnessed by the
constructor's hypothesis). -/
inductive Step : WMState → WMState → Prop where
  | maprequest (s : WMState) (w : WinId) (attrs : Option Bool)
      (geom : Option xcb_get_geometry_reply_t) (hints : Option xcb_size_hints_t)
      (transient : Option WinId) (mem : StackGarbage) (urg : Option Nat) :
      Step s (maprequest s w attrs geom hints transient mem urg).1
  | unmapnotify (s : WMState) (w : WinId) (urg : Option Nat) :
      Step s (unmapnotify s w urg).1
  | destroynotify (s : WMState) (w : WinId) (urg : Option Nat) :
      Step s (destroynotify s w urg).1
  | enternotify (s : WMState) (e : xcb_enter_notify_event_t) (urg : Option Nat) :
      Step s (enternotify s e urg).1
  | focusin (s : WMState) (ew : WinId) :
      Step s (focusin s ew).1
  | configurerequest (s : WMState) (e : xcb_configure_request_event_t) :
      Step s (configurerequest s e).1
  | propertynotify (s : WMState) (e : xcb_property_notify_event_t) (o : PropReplies) :
      Step s (propertynotify s e o).1
  | configurenotify (s : WMState) (e : xcb_configure_notify_event_t) (urg : Option Nat) :
      Step s (configurenotify s e urg).1
  | focus (s : WMState) (copt : Option WinId) (urg : Option Nat)
      (hc : ∀ w, copt = some w → w ∈ s.clients) :
      Step s (focus s copt urg).1

/-- States reachable from the post-`setup` empty registry by any sequence
of event dispatches. -/
def Reachable (W H : Int) (rt : WinId) (s : WMState) : Prop :=
  Relation.ReflTransGen Step (initState W H rt) s

/-! ### Concrete instances used by witnesses and counterexamples -/

/-- A client record with recorded size 100×60 (tiled). -/
def c4client : client_t := { callocClient 5 with w := 100, h := 60 }

/-- A floating client whose normal hints carry a resize increment of 7 and
a maximum width of 10 (no minimum, no base, no aspect). -/
def c6client : client_t :=
  { callocClient 6 with isfloating := true, incw := 7, maxw := 10 }

/-- `c6client` after recording the geometry that `applysizehints` returned
for the request (0, 0, 20, 20). -/
def c6client2 : client_t := { c6client with x := 0, y := 0, w := 10, h := 20 }

/-- A tiled client with recorded geometry (0, 0, 3, 4). -/
def tiledClient : client_t := { callocClient 9 with w := 3, h := 4 }

/-- A geometry reply for a small 5×6 window. -/
def exGeom : xcb_get_geometry_reply_t :=
  { x := 3, y := 4, width := 5, height := 6, border_width := 2 }

/-- Normal hints declaring min size = max size = 10×10, which makes the
client fixed-size. -/
def exHints : xcb_size_hints_t :=
  { flags := SizeHintPMinSize + SizeHintPMaxSize, base_width := 0, base_height := 0,
    min_width := 10, min_height := 10, max_width := 10, max_height := 10,
    width_inc := 0, height_inc := 0, min_aspect_num := 0, min_aspect_den := 0,
    max_aspect_num := 0, max_aspect_den := 0 }

/-- Concrete stand-in for `manage`'s uninitialized params fields. -/
def exMem : StackGarbage := { gx := 0, gy := 0, gw := 0, gh := 0, gsm := 0 }

/-- The state after managing window 5 (fixed-size, hence floating) on a
100×80 screen with root window 1: one `maprequest` dispatch from the
initial state. -/
def exManaged : WMState :=
  (maprequest (initState 100 80 1) 5 (some false) (some exGeom) (some exHints)
    none exMem none).1

/-- A `WM_TRANSIENT_FOR` property notification for window 5. -/
def exTransientEv : xcb_property_notify_event_t :=
  { window := 5, atom := XA_WM_TRANSIENT_FOR, state := 0 }

/-- Replies for `exTransientEv`: the property parses and names window 7,
which is not managed. -/
def exTransientReplies : PropReplies :=
  { transient := some 7, sizehints := none, wmhints := none, uninitFlags := 0,
    urg := none }

/-- `exManaged` after the transient-for property change: `check_refloat`
turns the fixed-size client tiled because window 7 is unmanaged. -/
def exRefloated : WMState :=
  (propertynotify exManaged exTransientEv exTransientReplies).1

/-- A state managing a single floating client, window 5, selected. -/
def s5state : WMState :=
  { initState 100 80 1 with
    clients := [5],
    stack := [5],
    sel := some 5,
    recs := updRec (fun v => callocClient v) 5
      { callocClient 5 with isfloating := true, x := 10, y := 10, w := 20, h := 20 } }

/-- A ConfigureRequest naming only the y coordinate (value mask `CWY`). -/
def e5yOnly : xcb_configure_request_event_t :=
  { window := 5, value_mask := CWY, x := 0, y := 7, width := 0, height := 0,
    border_width := 0, sibling := 0, stack_mode := 0 }

/-- A ConfigureRequest naming only the x coordinate (value mask `CWX`). -/
def e5xOnly : xcb_configure_request_event_t :=
  { window := 5, value_mask := CWX, x := 3, y := 0, width := 0, height := 0,
    border_width := 0, sibling := 0, stack_mode := 0 }

/-- A state with two managed clients where window 6, not window 5, is
selected. -/
def s8state : WMState :=
  { initState 100 80 1 with
    clients := [5, 6],
    stack := [6, 5],
    sel := some 6 }

/-- A `WM_HINTS` property notification for window 5. -/
def e8ev : xcb_property_notify_event_t := { window := 5, atom := XA_WM_HINTS, state := 0 }

/-- Replies for `e8ev`: the WM-hints reply parses and its flags word is
exactly the urgency bit. -/
def o8replies : PropReplies :=
  { transient := none, sizehints := none, wmhints := some XUrgencyHint,
    uninitFlags := 0, urg := none }

/-- A ConfigureRequest from an unmanaged window 7 with value mask
95 = 1+2+4+8+16+64: x, y, width, height, border width and stack mode
named, the sibling bit clear. -/
def e9ev : xcb_configure_request_event_t :=
  { window := 7, value_mask := 95, x := 11, y := 12, width := 13, height := 14,
    border_width := 15, sibling := 16, stack_mode := 17 }

/-- A state with a non-empty focus stack but no selected client. -/
def s10state : WMState :=
  { initState 100 80 1 with
    clients := [4, 5],
    stack := [4, 5],
    sel := none }

/-! ### Structural lemmas about the operations -/

/-- The registry bookkeeping invariant: no duplicates in either list, and
the two lists carry the same members. -/
def Inv (s : WMState) : Prop :=
  s.clients.Nodup ∧ s.stack.Nodup ∧ ∀ v, v ∈ s.clients ↔ v ∈ s.stack

theorem getclient_none {s : WMState} {w : WinId} (h : getclient s w = none) :
    w ∉ s.clients := by
  intro hmem
  have := List.find?_eq_none.mp h w hmem
  simp at this

theorem getclient_some {s : WMState} {w cw : WinId} (h : getclient s w = some cw) :
    cw ∈ s.clients ∧ cw = w := by
  refine ⟨List.mem_of_find?_eq_some h, ?_⟩
  have := List.find?_some h
  simpa using this

theorem resize_parts (s : WMState) (cw : WinId) (x y w h : Int) :
    (resize s cw x y w h).1.clients = s.clients ∧
    (resize s cw x y w h).1.stack = s.stack ∧
    (resize s cw x y w h).1.sel = s.sel := by
  unfold resize
  dsimp only
  split <;> simp

theorem resize_class (s : WMState) (cw : WinId) (x y w h : Int) (v : WinId) :
    ((resize s cw x y w h).1.recs v).isfixed = (s.recs v).isfixed ∧
    ((resize s cw x y w h).1.recs v).isfloating = (s.recs v).isfloating := by
  unfold resize updRec
  dsimp only
  split
  · dsimp only
    split <;> simp_all
  · simp

theorem clearurgent_parts (s : WMState) (cw : WinId) (urg : Option Nat) :
    (clearurgent s cw urg).1.clients = s.clients ∧
    (clearurgent s cw urg).1.stack = s.stack ∧
    (clearurgent s cw urg).1.sel = s.sel := by
  unfold clearurgent
  cases urg <;> simp

theorem clearurgent_class (s : WMState) (cw : WinId) (urg : Option Nat) (v : WinId) :
    ((clearurgent s cw urg).1.recs v).isfixed = (s.recs v).isfixed ∧
    ((clearurgent s cw urg).1.recs v).isfloating = (s.recs v).isfloating := by
  unfold clearurgent updRec
  cases urg <;> dsimp only <;> split <;> simp_all

theorem showhide_parts (l : List WinId) (s : WMState) :
    (showhide s l).1.clients = s.clients ∧
    (showhide s l).1.stack = s.stack ∧
    (showhide s l).1.sel = s.sel := by
  induction l generalizing s with
  | nil => exact ⟨rfl, rfl, rfl⟩
  | cons v rest ih =>
      unfold showhide
      dsimp only
      split
      · obtain ⟨h1, h2, h3⟩ := resize_parts s v (s.recs v).x (s.recs v).y (s.recs v).w (s.recs v).h
        obtain ⟨g1, g2, g3⟩ := ih (resize s v (s.recs v).x (s.recs v).y (s.recs v).w (s.recs v).h).1
        exact ⟨g1.trans h1, g2.trans h2, g3.trans h3⟩
      · exact ih s

theorem showhide_class (l : List WinId) (s : WMState) (v : WinId) :
    ((showhide s l).1.recs v).isfixed = (s.recs v).isfixed ∧
    ((showhide s l).1.recs v).isfloating = (s.recs v).isfloating := by
  induction l generalizing s with
  | nil => exact ⟨rfl, rfl⟩
  | cons u rest ih =>
      unfold showhide
      dsimp only
      split
      · obtain ⟨h1, h2⟩ := resize_class s u (s.recs u).x (s.recs u).y (s.recs u).w (s.recs u).h v
        obtain ⟨g1, g2⟩ := ih (resize s u (s.recs u).x (s.recs u).y (s.recs u).w (s.recs u).h).1
        exact ⟨g1.trans h1, g2.trans h2⟩
      · exact ih s

theorem monocleGo_parts (l : List WinId) (s : WMState) :
    (monocleGo s l).1.clients = s.clients ∧
    (monocleGo s l).1.stack = s.stack ∧
    (monocleGo s l).1.sel = s.sel := by
  induction l generalizing s with
  | nil => exact ⟨rfl, rfl, rfl⟩
  | cons v rest ih =>
      unfold monocleGo
      dsimp only
      split
      · exact ih s
      · obtain ⟨h1, h2, h3⟩ := resize_parts s v s.wx s.wy s.ww s.wh
        obtain ⟨g1, g2, g3⟩ := ih (resize s v s.wx s.wy s.ww s.wh).1
        exact ⟨g1.trans h1, g2.trans h2, g3.trans h3⟩

theorem monocleGo_class (l : List WinId) (s : WMState) (v : WinId) :
    ((monocleGo s l).1.recs v).isfixed = (s.recs v).isfixed ∧
    ((monocleGo s l).1.recs v).isfloating = (s.recs v).isfloating := by
  induction l generalizing s with
  | nil => exact ⟨rfl, rfl⟩
  | cons u rest ih =>
      unfold monocleGo
      dsimp only
      split
      · exact ih s
      · obtain ⟨h1, h2⟩ := resize_class s u s.wx s.wy s.ww s.wh v
        obtain ⟨g1, g2⟩ := ih (resize s u s.wx s.wy s.ww s.wh).1
        exact ⟨g1.trans h1, g2.trans h2⟩

theorem focus_clients (s : WMState) (copt : Option WinId) (urg : Option Nat) :
    (focus s copt urg).1.clients = s.clients := by
  unfold focus
  rcases copt with _ | w
  · dsimp only
    cases hs : s.stack.head? with
    | none => rfl
    | some w =>
        dsimp only
        split
        · exact (clearurgent_parts s w urg).1
        · rfl
  · dsimp only
    split
    · exact (clearurgent_parts s w urg).1
    · rfl

theorem focus_sel (s : WMState) (copt : Option WinId) (urg : Option Nat) :
    (focus s copt urg).1.sel = (match copt with | none => s.stack.head? | some w => some w) := by
  unfold focus
  rcases copt with _ | w
  · dsimp only
    cases hs : s.stack.head? <;> rfl
  · rfl

theorem focus_class (s : WMState) (copt : Option WinId) (urg : Option Nat) (v : WinId) :
    ((focus s copt urg).1.recs v).isfixed = (s.recs v).isfixed ∧
    ((focus s copt urg).1.recs v).isfloating = (s.recs v).isfloating := by
  unfold focus
  rcases copt with _ | w
  · dsimp only
    cases hs : s.stack.head? with
    | none => exact ⟨rfl, rfl⟩
    | some w =>
        dsimp only
        split
        · exact clearurgent_class s w urg v
        · exact ⟨rfl, rfl⟩
  · dsimp only
    split
    · exact clearurgent_class s w urg v
    · exact ⟨rfl, rfl⟩

theorem focus_inv (s : WMState) (copt : Option WinId) (urg : Option Nat)
    (hc : ∀ w, copt = some w → w ∈ s.clients) (hI : Inv s) :
    Inv (focus s copt urg).1 := by
  obtain ⟨hnc, hns, hmem⟩ := hI
  have key : ∀ w, w ∈ s.clients →
      Inv { s with stack := w :: s.stack.erase w, sel := some w } := by
    intro w hw
    refine ⟨hnc, ?_, ?_⟩
    · exact List.Nodup.cons (fun hin => ((hns.mem_erase_iff).mp hin).1 rfl) (hns.erase w)
    · intro v
      by_cases hvw : v = w
      · subst hvw
        simpa using hw
      · simp only [List.mem_cons, hvw, false_or]
        rw [List.mem_erase_of_ne hvw]
        exact hmem v
  unfold focus
  rcases copt with _ | w
  · dsimp only
    cases hs : s.stack.head? with
    | none => exact ⟨hnc, hns, hmem⟩
    | some w =>
        have hw : w ∈ s.clients := by
          refine (hmem w).mpr ?_
          exact List.mem_of_mem_head? (by rw [hs]; exact rfl)
        dsimp only
        split
        · obtain ⟨h1, h2, _⟩ := clearurgent_parts s w urg
          have := key w hw
          refine ⟨?_, ?_, ?_⟩ <;> simp only [h1, h2]
          · exact this.1
          · exact this.2.1
          · exact this.2.2
        · exact key w hw
  · have hw : w ∈ s.clients := hc w rfl
    dsimp only
    split
    · obtain ⟨h1, h2, _⟩ := clearurgent_parts s w urg
      have := key w hw
      refine ⟨?_, ?_, ?_⟩ <;> simp only [h1, h2]
      · exact this.1
      · exact this.2.1
      · exact this.2.2
    · exact key w hw

theorem arrange_clients (s : WMState) (urg : Option Nat) :
    (arrange s urg).1.clients = s.clients := by
  unfold arrange monocle
  dsimp only
  obtain ⟨m1, _, _⟩ := monocleGo_parts (focus (showhide s s.stack).1 none urg).1.clients
    (focus (showhide s s.stack).1 none urg).1
  rw [m1, focus_clients, (showhide_parts s.stack s).1]

theorem arrange_sel_eq_head (s : WMState) (urg : Option Nat) :
    (arrange s urg).1.sel = s.stack.head? := by
  unfold arrange monocle
  dsimp only
  obtain ⟨_, _, m3⟩ := monocleGo_parts (focus (showhide s s.stack).1 none urg).1.clients
    (focus (showhide s s.stack).1 none urg).1
  rw [m3, focus_sel, (showhide_parts s.stack s).2.1]

theorem arrange_class (s : WMState) (urg : Option Nat) (v : WinId) :
    ((arrange s urg).1.recs v).isfixed = (s.recs v).isfixed ∧
    ((arrange s urg).1.recs v).isfloating = (s.recs v).isfloating := by
  unfold arrange monocle
  dsimp only
  obtain ⟨m1, m2⟩ := monocleGo_class (focus (showhide s s.stack).1 none urg).1.clients
    (focus (showhide s s.stack).1 none urg).1 v
  obtain ⟨f1, f2⟩ := focus_class (showhide s s.stack).1 none urg v
  obtain ⟨h1, h2⟩ := showhide_class s.stack s v
  exact ⟨(m1.trans f1).trans h1, (m2.trans f2).trans h2⟩

theorem arrange_inv (s : WMState) (urg : Option Nat) (hI : Inv s) :
    Inv (arrange s urg).1 := by
  unfold arrange monocle
  dsimp only
  obtain ⟨s1, s2, _⟩ := showhide_parts s.stack s
  have hI1 : Inv (showhide s s.stack).1 := by
    refine ⟨?_, ?_, ?_⟩
    · rw [s1]; exact hI.1
    · rw [s2]; exact hI.2.1
    · intro v; rw [s1, s2]; exact hI.2.2 v
  have hI2 : Inv (focus (showhide s s.stack).1 none urg).1 :=
    focus_inv _ none urg (fun w hw => by cases hw) hI1
  obtain ⟨m1, m2, _⟩ := monocleGo_parts (focus (showhide s s.stack).1 none urg).1.clients
    (focus (showhide s s.stack).1 none urg).1
  refine ⟨?_, ?_, ?_⟩
  · rw [m1]; exact hI2.1
  · rw [m2]; exact hI2.2.1
  · intro v; rw [m1, m2]; exact hI2.2.2 v

theorem unmanage_inv (s : WMState) (cw : WinId) (urg : Option Nat) (hI : Inv s) :
    Inv (unmanage s cw urg).1 := by
  unfold unmanage
  dsimp only
  apply arrange_inv
  have hI1 : Inv { s with clients := s.clients.erase cw, stack := s.stack.erase cw } := by
    refine ⟨hI.1.erase cw, hI.2.1.erase cw, fun v => ?_⟩
    dsimp only
    rw [hI.1.mem_erase_iff, hI.2.1.mem_erase_iff]
    exact and_congr_right fun _ => hI.2.2 v
  split
  · exact focus_inv _ none urg (fun w hw => by cases hw) hI1
  · exact hI1

theorem manage_inv (s : WMState) (w : WinId) (geom : Option xcb_get_geometry_reply_t)
    (hints : Option xcb_size_hints_t) (transient : Option WinId) (mem : StackGarbage)
    (urg : Option Nat) (hfresh : w ∉ s.clients) (hI : Inv s) :
    Inv (manage s w geom hints transient mem urg).1 := by
  unfold manage
  cases geom with
  | none => exact hI
  | some g =>
      dsimp only
      apply arrange_inv
      refine ⟨List.nodup_cons.mpr ⟨hfresh, hI.1⟩,
              List.nodup_cons.mpr ⟨fun hw => hfresh ((hI.2.2 w).mpr hw), hI.2.1⟩,
              fun v => ?_⟩
      simp only [List.mem_cons]
      exact or_congr_right (hI.2.2 v)

theorem maprequest_inv (s : WMState) (w : WinId) (attrs : Option Bool)
    (geom : Option xcb_get_geometry_reply_t) (hints : Option xcb_size_hints_t)
    (transient : Option WinId) (mem : StackGarbage) (urg : Option Nat) (hI : Inv s) :
    Inv (maprequest s w attrs geom hints transient mem urg).1 := by
  unfold maprequest
  cases attrs with
  | none => exact hI
  | some override =>
      dsimp only
      split
      · cases hg : getclient s w with
        | none => exact manage_inv s w geom hints transient mem urg (getclient_none hg) hI
        | some cw => exact hI
      · exact hI

theorem unmapnotify_inv (s : WMState) (w : WinId) (urg : Option Nat) (hI : Inv s) :
    Inv (unmapnotify s w urg).1 := by
  unfold unmapnotify
  cases hg : getclient s w with
  | none => exact hI
  | some cw => exact unmanage_inv s cw urg hI

theorem destroynotify_inv (s : WMState) (w : WinId) (urg : Option Nat) (hI : Inv s) :
    Inv (destroynotify s w urg).1 := by
  unfold destroynotify
  cases hg : getclient s w with
  | none => exact hI
  | some cw => exact unmanage_inv s cw urg hI

theorem enternotify_inv (s : WMState) (e : xcb_enter_notify_event_t) (urg : Option Nat)
    (hI : Inv s) : Inv (enternotify s e urg).1 := by
  unfold enternotify
  split
  · exact hI
  · cases hg : getclient s e.event with
    | none => exact focus_inv s none urg (fun w hw => by cases hw) hI
    | some cw =>
        refine focus_inv s (some cw) urg (fun w hw => ?_) hI
        cases hw
        exact (getclient_some hg).1

theorem focusin_inv (s : WMState) (ew : WinId) (hI : Inv s) : Inv (focusin s ew).1 := by
  unfold focusin
  cases s.sel with
  | none => exact hI
  | some w =>
      dsimp only
      split
      · exact hI
      · exact hI

theorem configurerequest_inv (s : WMState) (e : xcb_configure_request_event_t)
    (hI : Inv s) : Inv (configurerequest s e).1 := by
  unfold configurerequest
  cases hg : getclient s e.window with
  | none => exact hI
  | some cw =>
      dsimp only
      split
      · split
        · exact hI
        · exact hI
      · split
        · exact hI
        · exact hI

theorem updatewmhints_inv (s : WMState) (cw : WinId) (reply : Option Nat)
    (uninitFlags : Nat) (hI : Inv s) : Inv (updatewmhints s cw reply uninitFlags).1 := by
  unfold updatewmhints
  cases reply with
  | none => exact hI
  | some flags =>
      dsimp only
      split
      · exact hI
      · exact hI

theorem check_refloat_inv (s : WMState) (cw : WinId) (transientReply : Option WinId)
    (urg : Option Nat) (hI : Inv s) : Inv (check_refloat s cw transientReply urg).1 := by
  unfold check_refloat
  cases transientReply with
  | none => exact hI
  | some t =>
      dsimp only
      split
      · exact arrange_inv _ urg hI
      · exact hI

theorem propertynotify_inv (s : WMState) (e : xcb_property_notify_event_t)
    (o : PropReplies) (hI : Inv s) : Inv (propertynotify s e o).1 := by
  unfold propertynotify
  split
  · exact hI
  · split
    · exact hI
    · cases hg : getclient s e.window with
      | none => exact hI
      | some cw =>
          dsimp only
          split
          · exact check_refloat_inv s cw o.transient o.urg hI
          · split
            · exact hI
            · split
              · exact updatewmhints_inv s cw o.wmhints o.uninitFlags hI
              · exact hI

theorem configurenotify_inv (s : WMState) (e : xcb_configure_notify_event_t)
    (urg : Option Nat) (hI : Inv s) : Inv (configurenotify s e urg).1 := by
  unfold configurenotify
  split
  · exact arrange_inv _ urg hI
  · exact hI

theorem step_inv {s t : WMState} (hstep : Step s t) (hI : Inv s) : Inv t := by
  cases hstep with
  | maprequest w attrs geom hints transient mem urg =>
      exact maprequest_inv s w attrs geom hints transient mem urg hI
  | unmapnotify w urg => exact unmapnotify_inv s w urg hI
  | destroynotify w urg => exact destroynotify_inv s w urg hI
  | enternotify e urg => exact enternotify_inv s e urg hI
  | focusin ew => exact focusin_inv s ew hI
  | configurerequest e => exact configurerequest_inv s e hI
  | propertynotify e o => exact propertynotify_inv s e o hI
  | configurenotify e urg => exact configurenotify_inv s e urg hI
  | focus copt urg hc => exact focus_inv s copt urg hc hI

theorem reachable_inv (W H : Int) (rt : WinId) (s : WMState)
    (h : Reachable W H rt s) : Inv s := by
  induction h with
  | refl => exact ⟨List.nodup_nil, List.nodup_nil, fun v => by simp [initState]⟩
  | tail _ hstep ih => exact step_inv hstep ih

/-! ### Further helper lemmas -/

theorem clampPos_fix (sw cold cnew p len : Int) (hlen : 1 ≤ len) (hcold : 0 ≤ cold)
    (hsw : 0 ≤ sw) :
    clampPos 0 sw cnew (clampPos 0 sw cold p len) len = clampPos 0 sw cold p len := by
  simp only [clampPos]
  split_ifs <;> omega

theorem applysizehints_tiled (sx sy sw sh : Int) (c : client_t) (x y w h : Int)
    (hfl : c.isfloating = false) :
    applysizehints sx sy sw sh c x y w h =
      ((clampPos sx sw c.w x (max 1 w), clampPos sy sh c.h y (max 1 h),
        max 1 w, max 1 h),
       (clampPos sx sw c.w x (max 1 w) != c.x) || (clampPos sy sh c.h y (max 1 h) != c.y) ||
       (max 1 w != c.w) || (max 1 h != c.h)) := by
  simp only [applysizehints, clampPos, hfl, Bool.false_eq_true, if_false]

theorem synth_cond_iff (m : Nat) :
    ((m &&& (CWX + CWY)) &&& (if m &&& (CWWidth + CWHeight) ≠ 0 then 0 else 1) ≠ 0) ↔
      (m &&& CWX ≠ 0 ∧ m &&& (CWWidth + CWHeight) = 0) := by
  by_cases h : m &&& (CWWidth + CWHeight) = 0
  · rw [if_neg (by simp [h])]
    rw [Nat.and_assoc]
    have h31 : ((CWX + CWY) &&& 1 : Nat) = CWX := rfl
    rw [h31]
    simp [h]
  · rw [if_pos h]
    simp [Nat.and_zero, h]

/-! ### The claims -/

/-- C1: for every reachable state of the window manager (any sequence of
manage, unmanage, focus and event-handler invocations starting from the
empty registry), the set of clients linked into the z-order list equals
the set of clients linked into the focus-history stack: no client is ever
a member of one list and not the other. -/
theorem reachable_zorder_matches_stack (W H : Int) (rt : WinId) (s : WMState)
    (h : Reachable W H rt s) : ∀ v, v ∈ s.clients ↔ v ∈ s.stack :=
  (reachable_inv W H rt s h).2.2

/-- Witness for `reachable_zorder_matches_stack`: the state reached by one
`maprequest` dispatch managing window 5. -/
theorem reachable_zorder_matches_stack_witness :
    5 ∈ exManaged.clients ↔ 5 ∈ exManaged.stack :=
  reachable_zorder_matches_stack 100 80 1 exManaged
    (Relation.ReflTransGen.single
      (Step.maprequest (initState 100 80 1) 5 (some false) (some exGeom)
        (some exHints) none exMem none)) 5

/-- C2 counterexample: a reachable state with a managed client whose
`isfixed` is true but whose `isfloating` is false.  Window 5 is managed
with min = max hints (fixed, hence floating), then a `WM_TRANSIENT_FOR`
property change naming the unmanaged window 7 makes `check_refloat` reset
`isfloating` to "the transient target is managed" = false, while
`isfixed` stays true — so the invariant is not preserved by
`check_refloat`, contradicting the claim. -/
theorem fixed_client_refloated_tiled_cex :
    Reachable 100 80 1 exRefloated ∧ 5 ∈ exRefloated.clients ∧
    (exRefloated.recs 5).isfixed = true ∧ (exRefloated.recs 5).isfloating = false :=
  ⟨Relation.ReflTransGen.tail
      (Relation.ReflTransGen.single
        (Step.maprequest (initState 100 80 1) 5 (some false) (some exGeom)
          (some exHints) none exMem none))
      (Step.propertynotify exManaged exTransientEv exTransientReplies),
   by decide, by decide, by decide⟩

/-- C2 amended: immediately after `manage`, the managed client satisfies
`isfixed → isfloating` (line 767 or-joins `isfixed` into `isfloating` and
nothing later in `manage` or `arrange` clears either flag); the
implication is however not an invariant of all reachable states, because
`check_refloat` overwrites `isfloating` from the transient target alone
and `updatesizehints` recomputes `isfixed` without touching `isfloating`
(see `fixed_client_refloated_tiled_cex`). -/
theorem manage_fixed_implies_floating (s : WMState) (w : WinId)
    (g : xcb_get_geometry_reply_t) (hints : Option xcb_size_hints_t)
    (transient : Option WinId) (mem : StackGarbage) (urg : Option Nat)
    (hfix : ((manage s w (some g) hints transient mem urg).1.recs w).isfixed = true) :
    ((manage s w (some g) hints transient mem urg).1.recs w).isfloating = true := by
  unfold manage at hfix ⊢
  dsimp only at hfix ⊢
  rw [(arrange_class _ urg w).1] at hfix
  rw [(arrange_class _ urg w).2]
  dsimp only [updRec] at hfix ⊢
  rw [if_pos rfl] at hfix ⊢
  cases transient with
  | none =>
      simp at hfix
      simp [hfix]
  | some t =>
      simp at hfix
      simp [hfix]

/-- Witness for `manage_fixed_implies_floating`: managing window 5 with
min = max normal hints yields a fixed and floating client. -/
theorem manage_fixed_implies_floating_witness :
    ((manage (initState 100 80 1) 5 (some exGeom) (some exHints) none exMem
        none).1.recs 5).isfixed = true ∧
    ((manage (initState 100 80 1) 5 (some exGeom) (some exHints) none exMem
        none).1.recs 5).isfloating = true :=
  ⟨by decide,
   manage_fixed_implies_floating (initState 100 80 1) 5 exGeom (some exHints)
     none exMem none (by decide)⟩

/-- C3 counterexample: a reachable state with a managed client on which
`arrange` completes with that client Selected — `focus(NULL)` inside
`arrange` resolves to the stack head instead of clearing the selection,
so "immediately after any arrange() completes no client is Selected" is
false.  (`exManaged` itself is the output of the `arrange` that ends
`manage`, and already has `sel = some 5`.) -/
theorem arrange_keeps_selection_cex :
    Reachable 100 80 1 exManaged ∧ exManaged.sel = some 5 ∧
    (arrange exManaged none).1.sel = some 5 :=
  ⟨Relation.ReflTransGen.single
      (Step.maprequest (initState 100 80 1) 5 (some false) (some exGeom)
        (some exHints) none exMem none),
   by decide, by decide⟩

/-- C3 amended: `arrange`'s second step calls `focus` with no candidate,
which resolves to the head of the focus-history stack; hence immediately
after any `arrange` completes, Selected equals the stack head — it is
none exactly when no client is managed, not unconditionally. -/
theorem arrange_sel_is_stack_head (s : WMState) (urg : Option Nat) :
    (arrange s urg).1.sel = s.stack.head? :=
  arrange_sel_eq_head s urg

/-- C4 counterexample: screen 1920×1080 at the origin, client with
recorded width 100, request (x, y, w, h) = (2000, 300, 50, 40): the
requested x exceeds `screen_x + screen_width`, the returned width is 50,
but the returned x is 1920 − 100 = 1820 (the code uses the client's
recorded width `c->w`), not `screen_width - w' = 1870` as the claim
states. -/
theorem applysizehints_offscreen_cex :
    (2000 : Int) > 0 + 1920 ∧
    (applysizehints 0 0 1920 1080 c4client 2000 300 50 40).1.2.2.1 = 50 ∧
    (applysizehints 0 0 1920 1080 c4client 2000 300 50 40).1.1 = 1820 ∧
    (1820 : Int) ≠ 1920 - 50 := by decide

/-- C4 amended: whenever the requested x exceeds `screen_x + screen_width`,
`applysizehints` returns `x' = screen_width - c.w` where `c.w` is the
client's currently recorded width (not the width being returned for this
request), provided the result does not then trigger the left-edge clamp
`x + w < screen_x`; symmetrically for y against
`screen_y + screen_height` with the recorded height `c.h`. -/
theorem applysizehints_offscreen_uses_recorded_size (sx sy sw sh : Int)
    (c : client_t) (x y w h : Int) :
    (x > sx + sw → sx ≤ sw - c.w + max 1 w →
      (applysizehints sx sy sw sh c x y w h).1.1 = sw - c.w) ∧
    (y > sy + sh → sy ≤ sh - c.h + max 1 h →
      (applysizehints sx sy sw sh c x y w h).1.2.1 = sh - c.h) := by
  constructor
  · intro h1 h2
    simp only [applysizehints]
    rw [if_pos h1, if_neg (not_lt.mpr h2)]
  · intro h1 h2
    simp only [applysizehints]
    rw [if_pos h1, if_neg (not_lt.mpr h2)]

/-- Witness for `applysizehints_offscreen_uses_recorded_size` at the C4
counterexample's input. -/
theorem applysizehints_offscreen_uses_recorded_size_witness :
    (2000 : Int) > 0 + 1920 ∧ (0 : Int) ≤ 1920 - c4client.w + max 1 50 ∧
    (applysizehints 0 0 1920 1080 c4client 2000 300 50 40).1.1 = 1920 - c4client.w :=
  ⟨by decide, by decide,
   (applysizehints_offscreen_uses_recorded_size 0 0 1920 1080 c4client
      2000 300 50 40).1 (by decide) (by decide)⟩

/-- C5 counterexample: a ConfigureRequest on a managed floating client
naming only y (a position field, no size field) produces no synthetic
configure notification: the condition `(mask & (CWX|CWY)) & !(mask &
(CWWidth|CWHeight))` tests only bit 0, so a y-only move is missed,
contradicting "exactly when the request named a position field but no
size field". -/
theorem configurerequest_y_only_move_cex :
    e5yOnly.value_mask &&& (CWX + CWY) ≠ 0 ∧
    e5yOnly.value_mask &&& (CWWidth + CWHeight) = 0 ∧
    getclient s5state e5yOnly.window = some e5yOnly.window ∧
    (s5state.recs e5yOnly.window).isfloating = true ∧
    e5yOnly.value_mask &&& CWBorderWidth = 0 ∧
    (configurerequest s5state e5yOnly).2.all (fun a => !(isSyntheticNotify a)) = true := by
  decide

/-- C5 amended: for a ConfigureRequest on a managed floating client whose
value mask does not name border width, the handler applies every masked
x/y/w/h field to the recorded geometry, re-centers per axis on overflow,
issues a real reconfigure with the resulting geometry, and emits the
synthetic notification exactly when the request named x and no size field
(a y-only move gets none, due to the bitwise `&`/`!` combination at
uuwm.c line 587); requests naming border width take the border-stripping
branch instead and never reach this logic. -/
theorem configurerequest_floating_behavior (s : WMState)
    (e : xcb_configure_request_event_t)
    (hmem : getclient s e.window = some e.window)
    (hfl : (s.recs e.window).isfloating = true)
    (hbw : e.value_mask &&& CWBorderWidth = 0) :
    ∃ c2 : client_t,
      (configurerequest s e).1 = { s with recs := updRec s.recs e.window c2 } ∧
      c2.w = (if e.value_mask &&& CWWidth ≠ 0 then e.width else (s.recs e.window).w) ∧
      c2.h = (if e.value_mask &&& CWHeight ≠ 0 then e.height else (s.recs e.window).h) ∧
      c2.x = (let cx := if e.value_mask &&& CWX ≠ 0 then s.sx + e.x else (s.recs e.window).x
              if cx - s.sx + c2.w > s.sw then s.sx + (Int.tdiv s.sw 2 - Int.tdiv c2.w 2)
              else cx) ∧
      c2.y = (let cy := if e.value_mask &&& CWY ≠ 0 then s.sy + e.y else (s.recs e.window).y
              if cy - s.sy + c2.h > s.sh then s.sy + (Int.tdiv s.sh 2 - Int.tdiv c2.h 2)
              else cy) ∧
      (configurerequest s e).2 =
        (if e.value_mask &&& CWX ≠ 0 ∧ e.value_mask &&& (CWWidth + CWHeight) = 0 then
            [configure_event c2] else [])
          ++ [mkConfigure c2.win (CWX + CWY + CWWidth + CWHeight) c2.x c2.y c2.w c2.h 0 0 0] := by
  unfold configurerequest
  rw [hmem]
  dsimp only
  rw [if_neg (by simp [hbw]), if_pos hfl]
  refine ⟨_, rfl, rfl, rfl, rfl, rfl, ?_⟩
  dsimp only
  congr 1
  rw [if_congr (synth_cond_iff e.value_mask) rfl rfl]

/-- Witness for `configurerequest_floating_behavior`: an x-only move of the
managed floating window 5. -/
theorem configurerequest_floating_behavior_witness :
    getclient s5state e5xOnly.window = some e5xOnly.window ∧
    (s5state.recs e5xOnly.window).isfloating = true ∧
    e5xOnly.value_mask &&& CWBorderWidth = 0 ∧
    (∃ c2 : client_t,
      (configurerequest s5state e5xOnly).1 =
        { s5state with recs := updRec s5state.recs e5xOnly.window c2 } ∧
      c2.w = (if e5xOnly.value_mask &&& CWWidth ≠ 0 then e5xOnly.width
              else (s5state.recs e5xOnly.window).w) ∧
      c2.h = (if e5xOnly.value_mask &&& CWHeight ≠ 0 then e5xOnly.height
              else (s5state.recs e5xOnly.window).h) ∧
      c2.x = (let cx := if e5xOnly.value_mask &&& CWX ≠ 0 then s5state.sx + e5xOnly.x
                        else (s5state.recs e5xOnly.window).x
              if cx - s5state.sx + c2.w > s5state.sw then
                s5state.sx + (Int.tdiv s5state.sw 2 - Int.tdiv c2.w 2)
              else cx) ∧
      c2.y = (let cy := if e5xOnly.value_mask &&& CWY ≠ 0 then s5state.sy + e5xOnly.y
                        else (s5state.recs e5xOnly.window).y
              if cy - s5state.sy + c2.h > s5state.sh then
                s5state.sy + (Int.tdiv s5state.sh 2 - Int.tdiv c2.h 2)
              else cy) ∧
      (configurerequest s5state e5xOnly).2 =
        (if e5xOnly.value_mask &&& CWX ≠ 0 ∧
            e5xOnly.value_mask &&& (CWWidth + CWHeight) = 0 then
            [configure_event c2] else [])
          ++ [mkConfigure c2.win (CWX + CWY + CWWidth + CWHeight)
                c2.x c2.y c2.w c2.h 0 0 0]) :=
  ⟨rfl, rfl, rfl, configurerequest_floating_behavior s5state e5xOnly rfl rfl rfl⟩

/-- C6 counterexample: a floating client with resize increment 7 and
maximum width 10 and no minimum: the request (0, 0, 20, 20) returns
width 10 (increment-trim to 14, then max-clamp to 10); recording that
geometry and applying `applysizehints` again to its own output returns
width 7 (10 is not increment-aligned), with the changed flag true — the
second application is not the identity. -/
theorem applysizehints_not_fixpoint_cex :
    (applysizehints 0 0 1920 1080 c6client 0 0 20 20).1 = (0, 0, 10, 20) ∧
    c6client2 = { c6client with x := 0, y := 0, w := 10, h := 20 } ∧
    applysizehints 0 0 1920 1080 c6client2 0 0 10 20 ≠ ((0, 0, 10, 20), false) := by
  decide

/-- C6 amended: the fixpoint property holds for non-floating clients — on
the screen origin `sx = sy = 0` that `setup()` establishes, with
non-negative screen dimensions and a non-negative recorded size, a second
application of `applysizehints` to geometry it returned (after that
geometry is recorded) returns the same tuple with the changed flag false.
For floating clients the property fails, because the min/max clamp output
need not be increment-aligned (`applysizehints_not_fixpoint_cex`). -/
theorem applysizehints_tiled_fixpoint (sw sh : Int) (c : client_t) (x y w h : Int)
    (hfl : c.isfloating = false) (hcw : 0 ≤ c.w) (hch : 0 ≤ c.h)
    (hsw : 0 ≤ sw) (hsh : 0 ≤ sh) :
    applysizehints 0 0 sw sh
        { c with x := (applysizehints 0 0 sw sh c x y w h).1.1,
                 y := (applysizehints 0 0 sw sh c x y w h).1.2.1,
                 w := (applysizehints 0 0 sw sh c x y w h).1.2.2.1,
                 h := (applysizehints 0 0 sw sh c x y w h).1.2.2.2 }
        (applysizehints 0 0 sw sh c x y w h).1.1
        (applysizehints 0 0 sw sh c x y w h).1.2.1
        (applysizehints 0 0 sw sh c x y w h).1.2.2.1
        (applysizehints 0 0 sw sh c x y w h).1.2.2.2
      = ((applysizehints 0 0 sw sh c x y w h).1, false) := by
  rw [applysizehints_tiled 0 0 sw sh c x y w h hfl]
  rw [applysizehints_tiled]
  · have hw1 : max 1 (max 1 w) = max 1 w := by omega
    have hh1 : max 1 (max 1 h) = max 1 h := by omega
    simp only [hw1, hh1]
    rw [clampPos_fix sw c.w _ x (max 1 w) (by omega) hcw hsw,
        clampPos_fix sh c.h _ y (max 1 h) (by omega) hch hsh]
    simp [bne_self_eq_false]
  · exact hfl

/-- Witness for `applysizehints_tiled_fixpoint`: the tiled client with
recorded geometry (0, 0, 3, 4) and request (5, 6, 7, 8) on a 100×80
screen. -/
theorem applysizehints_tiled_fixpoint_witness :
    tiledClient.isfloating = false ∧ (0 : Int) ≤ tiledClient.w ∧
    (0 : Int) ≤ tiledClient.h ∧
    applysizehints 0 0 100 80
        { tiledClient with x := (applysizehints 0 0 100 80 tiledClient 5 6 7 8).1.1,
                           y := (applysizehints 0 0 100 80 tiledClient 5 6 7 8).1.2.1,
                           w := (applysizehints 0 0 100 80 tiledClient 5 6 7 8).1.2.2.1,
                           h := (applysizehints 0 0 100 80 tiledClient 5 6 7 8).1.2.2.2 }
        (applysizehints 0 0 100 80 tiledClient 5 6 7 8).1.1
        (applysizehints 0 0 100 80 tiledClient 5 6 7 8).1.2.1
        (applysizehints 0 0 100 80 tiledClient 5 6 7 8).1.2.2.1
        (applysizehints 0 0 100 80 tiledClient 5 6 7 8).1.2.2.2
      = ((applysizehints 0 0 100 80 tiledClient 5 6 7 8).1, false) :=
  ⟨rfl, by decide, by decide,
   applysizehints_tiled_fixpoint 100 80 tiledClient 5 6 7 8 rfl (by decide)
     (by decide) (by decide) (by decide)⟩

/-- C7: for a non-floating (tiled) client, `applysizehints` performs no
ICCCM constraint arithmetic at all: the returned width is exactly
`max 1 w`, the returned height exactly `max 1 h`, and x and y are altered
only by the off-screen position clamp (`clampPos`). -/
theorem applysizehints_tiled_no_constraints (sx sy sw sh : Int) (c : client_t)
    (x y w h : Int) (hfl : c.isfloating = false) :
    (applysizehints sx sy sw sh c x y w h).1 =
      (clampPos sx sw c.w x (max 1 w), clampPos sy sh c.h y (max 1 h),
       max 1 w, max 1 h) := by
  rw [applysizehints_tiled sx sy sw sh c x y w h hfl]

/-- Witness for `applysizehints_tiled_no_constraints`: an in-bounds request
on a tiled client passes through unchanged. -/
theorem applysizehints_tiled_no_constraints_witness :
    tiledClient.isfloating = false ∧
    (applysizehints 0 0 1920 1080 tiledClient 5 6 300 200).1 = (5, 6, 300, 200) :=
  ⟨rfl, by
    rw [applysizehints_tiled_no_constraints 0 0 1920 1080 tiledClient 5 6 300 200 rfl]
    decide⟩

/-- C8 (code bug): a `WM_HINTS` property notification for the managed,
non-selected window 5 whose hints reply parses with the urgency bit set
leaves the handler's state completely unchanged — in particular
`isurgent` is not recomputed from the newly read hints, because the
`else` branch carrying the `isurgent` assignment in `updatewmhints` is
attached to the reply-parse test (and reads the uninitialized local
`hints`), not to the selected-and-urgent test. -/
theorem updatewmhints_ignores_read_urgency :
    o8replies.wmhints = some XUrgencyHint ∧
    s8state.sel ≠ some e8ev.window ∧
    (s8state.recs e8ev.window).isurgent = false ∧
    propertynotify s8state e8ev o8replies = (s8state, []) :=
  ⟨rfl, by decide, rfl, rfl⟩

/-- C9: a ConfigureRequest whose target window is not in the registry is
forwarded to the server unmodified — the emitted reconfigure carries the
event's exact original value mask and original field values, and the
state is unchanged. -/
theorem configurerequest_unmanaged_passthrough (s : WMState)
    (e : xcb_configure_request_event_t) (h : getclient s e.window = none) :
    configurerequest s e =
      (s, [XAction.configureWin e.window e.value_mask
            (pack_list e.value_mask
              [e.x, e.y, e.width, e.height, e.border_width, e.sibling, e.stack_mode])]) := by
  unfold configurerequest
  rw [h]
  exact rfl

/-- Witness for `configurerequest_unmanaged_passthrough`: the unmanaged
window 7 with value mask 95; the packed value list carries exactly the
masked original fields. -/
theorem configurerequest_unmanaged_passthrough_witness :
    getclient (initState 100 80 1) e9ev.window = none ∧
    pack_list e9ev.value_mask [e9ev.x, e9ev.y, e9ev.width, e9ev.height,
      e9ev.border_width, e9ev.sibling, e9ev.stack_mode] = [11, 12, 13, 14, 15, 17] ∧
    configurerequest (initState 100 80 1) e9ev =
      (initState 100 80 1,
       [XAction.configureWin e9ev.window e9ev.value_mask
         (pack_list e9ev.value_mask [e9ev.x, e9ev.y, e9ev.width, e9ev.height,
           e9ev.border_width, e9ev.sibling, e9ev.stack_mode])]) :=
  ⟨rfl, by decide, configurerequest_unmanaged_passthrough (initState 100 80 1) e9ev rfl⟩

/-- C10: when no client is Selected, `restack` returns immediately and
issues no stacking reconfiguration at all — neither the floating raise
nor the tiled sibling chain. -/
theorem restack_no_selection_no_requests (s : WMState) (h : s.sel = none) :
    restack s = [] := by
  unfold restack
  rw [h]

/-- Witness for `restack_no_selection_no_requests`: a state with a
non-empty focus-history stack but no selection emits nothing. -/
theorem restack_no_selection_no_requests_witness :
    s10state.sel = none ∧ s10state.stack ≠ [] ∧ restack s10state = [] :=
  ⟨rfl, by decide, restack_no_selection_no_requests s10state rfl⟩

end Uuwm
